import Mathlib

/-! Shallow embedding of the request-state layer of the Juulsgaard signal-tools
repository, together with proofs about its observable behaviour.

Conventions of the embedding:
* Angular signals are modelled by their current snapshot values (plain fields of
  the state records); a computed signal is modelled by a function of the state
  it reads, re-evaluated at every read.
* An rxjs subject is modelled by the list of events it has accepted so far; a
  subject that has accepted a terminal event (error or complete) is stopped and
  ignores further next/error/complete calls, matching rxjs semantics.  A replay
  subscriber observes exactly this accepted-event list.
* The promise or observable feeding an AsyncRequestState is modelled by the
  sequence of signals it delivers (value, error, completion), interleaved with
  consumer cancel calls into a single sequential trace; re-entrant delivery is
  outside the model, matching the single-threaded cooperative host.
-/

/-- Normalised JavaScript errors as far as the request-state code can
distinguish them: the dedicated cancellation kind (CancelledError from
rxjs-tools, carrying an optional message), a plain Error with a message, and
the rxjs EmptyError raised by a first() operator on an empty completion. -/
inductive Err where
  | cancelledError (msg : Option String)
  | error (msg : String)
  | emptyError
  deriving DecidableEq

/-- A raw JavaScript value in error position (TypeScript unknown): either
undefined or an Error instance. -/
inductive ErrVal where
  | undef
  | err (e : Err)
  deriving DecidableEq

/-- Modelled external collaborator: the parseError normalisation of
ts-tools, described by spec section 6 as normalize(unknown) -> Error.  An
Error instance is returned unchanged; a non-Error such as undefined is wrapped
into a plain Error.  The wrapper is a plain Error, never the CancelledError
kind, which only the rxjs-tools package produces. -/
def parseError : ErrVal → Err
  | ErrVal.err e => e
  | ErrVal.undef => Err.error ("undefined")

/-- Argument of cancel: a message string, an Error instance, or a thunk
producing an Error.  The thunk is invoked exactly once by the code, so it is
modelled by its result. -/
inductive CancelReason where
  | str (s : String)
  | errInst (e : Err)
  | thunk (result : Err)
  deriving DecidableEq

/-- Transcribes the cancel-reason handling shared by WritableRequestState and
both AsyncRequestState versions:
isString(error), then new CancelledError(error); isFunction(error), then
error(); otherwise the raw value.  With the reason omitted the raw value stays
undefined. -/
def fullError : Option CancelReason → ErrVal
  | none => ErrVal.undef
  | some (CancelReason.str s) => ErrVal.err (Err.cancelledError (some s))
  | some (CancelReason.errInst e) => ErrVal.err e
  | some (CancelReason.thunk e) => ErrVal.err e

/-- Does an error snapshot hold the dedicated cancellation kind? -/
def isCancelledKind : Option Err → Bool
  | some (Err.cancelledError _) => true
  | _ => false

/-- One event accepted by an rxjs subject. -/
inductive ChanEvent (T : Type) where
  | next (v : T)
  | fail (e : ErrVal)
  | complete
  deriving DecidableEq

variable {T : Type}

/-- Number of values the channel has emitted. -/
def nextCount : List (ChanEvent T) → Nat
  | [] => 0
  | ChanEvent.next _ :: es => nextCount es + 1
  | ChanEvent.fail _ :: es => nextCount es
  | ChanEvent.complete :: es => nextCount es

/-- Number of terminal events (error or completion) the channel has accepted. -/
def terminalCount : List (ChanEvent T) → Nat
  | [] => 0
  | ChanEvent.next _ :: es => terminalCount es
  | ChanEvent.fail _ :: es => terminalCount es + 1
  | ChanEvent.complete :: es => terminalCount es + 1

/-- An rxjs subject is stopped once it has accepted error or complete. -/
def chanStopped : List (ChanEvent T) → Bool
  | [] => false
  | ChanEvent.next _ :: es => chanStopped es
  | ChanEvent.fail _ :: _ => true
  | ChanEvent.complete :: _ => true

/-- subject.next: ignored once stopped. -/
def chanNext (es : List (ChanEvent T)) (v : T) : List (ChanEvent T) :=
  if chanStopped es then es else es ++ [ChanEvent.next v]

/-- subject.error: ignored once stopped. -/
def chanError (es : List (ChanEvent T)) (e : ErrVal) : List (ChanEvent T) :=
  if chanStopped es then es else es ++ [ChanEvent.fail e]

/-- subject.complete: ignored once stopped. -/
def chanComplete (es : List (ChanEvent T)) : List (ChanEvent T) :=
  if chanStopped es then es else es ++ [ChanEvent.complete]

/-- Outcome delivered to the callbacks of one then call. -/
inductive ThenEvent (T : Type) where
  | value (v : T)
  | failure (e : Err)
  deriving DecidableEq

/-- Deliveries made to the callbacks of one then call, as implemented by
IValueRequestState.then: a first()-subscription to the request channel.  The
value callback receives the first emitted value; the error callback receives
the normalised channel error, or the rxjs EmptyError when the channel completed
without a value.  A replay subscriber sees the full accepted-event list, so
this is independent of when then was called. -/
def thenDeliveries : List (ChanEvent T) → List (ThenEvent T)
  | [] => []
  | ChanEvent.next v :: _ => [ThenEvent.value v]
  | ChanEvent.fail e :: _ => [ThenEvent.failure (parseError e)]
  | ChanEvent.complete :: _ => [ThenEvent.failure Err.emptyError]

/-- A request channel is disciplined when it has emitted at most one value and
accepted at most one terminal event. -/
def chanDiscipline (es : List (ChanEvent T)) : Prop :=
  nextCount es ≤ 1 ∧ terminalCount es ≤ 1

/-! WritableRequestState, the externally driven variant
(file writable-request-state.ts). -/

/-- State of a WritableRequestState: the completed latch, the request and
result replay subjects, the result/loading/error signals, the cancelled signal
and replay subject, and the number of invocations of the optional owner
cancellation callback. -/
structure WritableRequestState (T : Type) where
  completed : Bool
  requestEvents : List (ChanEvent T)
  resultEvents : List (ChanEvent T)
  resultSig : Option T
  loading : Bool
  errorSig : Option Err
  cancelledSig : Bool
  cancelledEvents : List (ChanEvent Bool)
  onCancelCalls : Nat
  deriving DecidableEq

/-- Freshly constructed WritableRequestState. -/
def WritableRequestState.init : WritableRequestState T :=
  { completed := false, requestEvents := [], resultEvents := [], resultSig := none,
    loading := true, errorSig := none, cancelledSig := false, cancelledEvents := [],
    onCancelCalls := 0 }

/-- failed is computed from the error signal. -/
def WritableRequestState.failed (s : WritableRequestState T) : Bool :=
  s.errorSig.isSome

/-- setError: no-op when completed; otherwise latch, raise the raw error on the
request subject, complete the result subject, clear loading, store the
normalised error. -/
def WritableRequestState.setError (s : WritableRequestState T) (error : ErrVal) :
    WritableRequestState T :=
  if s.completed then s else
  { s with completed := true,
           requestEvents := chanError s.requestEvents error,
           resultEvents := chanComplete s.resultEvents,
           loading := false,
           errorSig := some (parseError error) }

/-- setValue: no-op when completed; otherwise latch, emit the value on the
request subject and complete it, clear loading, store the result.  The code
does not touch the result subject here. -/
def WritableRequestState.setValue (s : WritableRequestState T) (value : T) :
    WritableRequestState T :=
  if s.completed then s else
  { s with completed := true,
           requestEvents := chanComplete (chanNext s.requestEvents value),
           loading := false,
           resultSig := some value }

/-- cancel: false when completed; otherwise run setError on the processed
reason, set the cancelled signal, emit and complete the cancelled subject,
invoke the owner callback, and return true. -/
def WritableRequestState.cancel (s : WritableRequestState T) (reason : Option CancelReason) :
    WritableRequestState T × Bool :=
  if s.completed then (s, false) else
  ({ s.setError (fullError reason) with
       cancelledSig := true,
       cancelledEvents := chanComplete (chanNext s.cancelledEvents true),
       onCancelCalls := s.onCancelCalls + 1 }, true)

/-- asReadonly returns the instance itself. -/
def WritableRequestState.asReadonly (s : WritableRequestState T) : WritableRequestState T := s

/-- Operations a controller can perform on a WritableRequestState. -/
inductive WInput (T : Type) where
  | setValue (v : T)
  | setError (e : ErrVal)
  | cancel (r : Option CancelReason)
  deriving DecidableEq

def WritableRequestState.step (s : WritableRequestState T) : WInput T → WritableRequestState T
  | WInput.setValue v => s.setValue v
  | WInput.setError e => s.setError e
  | WInput.cancel r => (s.cancel r).1

def WritableRequestState.run (tr : List (WInput T)) : WritableRequestState T :=
  tr.foldl WritableRequestState.step WritableRequestState.init

/-! The two AsyncRequestState implementations.  One external stimulus trace
drives either: the wrapped source delivers at most its signals through the
take(1) adapter while the subscription is open, and consumers may call cancel
at any point of the trace. -/

/-- External stimuli of an AsyncRequestState. -/
inductive AsyncInput (T : Type) where
  | srcValue (v : T)
  | srcError (e : ErrVal)
  | srcComplete
  | cancel (r : Option CancelReason)
  deriving DecidableEq

/-- State of the AsyncRequestState version with an explicit completed latch
(file src/unnamed/part_004). -/
structure AsyncRequestStateLatch (T : Type) where
  completed : Bool
  requestEvents : List (ChanEvent T)
  resultEvents : List (ChanEvent T)
  resultSig : Option T
  loading : Bool
  errorSig : Option Err
  subClosed : Bool
  deriving DecidableEq

def AsyncRequestStateLatch.init : AsyncRequestStateLatch T :=
  { completed := false, requestEvents := [], resultEvents := [], resultSig := none,
    loading := true, errorSig := none, subClosed := false }

def AsyncRequestStateLatch.failed (s : AsyncRequestStateLatch T) : Bool :=
  s.errorSig.isSome

/-- private onError of the latch version. -/
def AsyncRequestStateLatch.onError (s : AsyncRequestStateLatch T) (error : ErrVal) :
    AsyncRequestStateLatch T :=
  if s.completed then s else
  { s with completed := true,
           requestEvents := chanError s.requestEvents error,
           resultEvents := chanComplete s.resultEvents,
           loading := false,
           errorSig := some (parseError error) }

/-- private onValue of the latch version. -/
def AsyncRequestStateLatch.onValue (s : AsyncRequestStateLatch T) (value : T) :
    AsyncRequestStateLatch T :=
  if s.completed then s else
  { s with completed := true,
           requestEvents := chanComplete (chanNext s.requestEvents value),
           resultEvents := chanComplete (chanNext s.resultEvents value),
           loading := false,
           resultSig := some value }

/-- private onCompleted of the latch version. -/
def AsyncRequestStateLatch.onCompleted (s : AsyncRequestStateLatch T) :
    AsyncRequestStateLatch T :=
  if s.completed then s else
  { s with completed := true,
           requestEvents := chanComplete s.requestEvents,
           resultEvents := chanComplete s.resultEvents,
           loading := false }

/-- cancel of the latch version: guard on the completed latch, unsubscribe,
force onError with the processed reason. -/
def AsyncRequestStateLatch.cancel (s : AsyncRequestStateLatch T) (reason : Option CancelReason) :
    AsyncRequestStateLatch T × Bool :=
  if s.completed then (s, false) else
  (AsyncRequestStateLatch.onError { s with subClosed := true } (fullError reason), true)

/-- Delivery of one stimulus.  A source signal reaches the handlers only while
the take(1) subscription is open, and closes it; take(1) follows a delivered
value with a completion. -/
def AsyncRequestStateLatch.deliver (s : AsyncRequestStateLatch T) :
    AsyncInput T → AsyncRequestStateLatch T
  | AsyncInput.srcValue v =>
      if s.subClosed then s else
      AsyncRequestStateLatch.onCompleted
        (AsyncRequestStateLatch.onValue { s with subClosed := true } v)
  | AsyncInput.srcError e =>
      if s.subClosed then s else
      AsyncRequestStateLatch.onError { s with subClosed := true } e
  | AsyncInput.srcComplete =>
      if s.subClosed then s else
      AsyncRequestStateLatch.onCompleted { s with subClosed := true }
  | AsyncInput.cancel r => (s.cancel r).1

/-- Run a stimulus trace, collecting the cancel return values. -/
def AsyncRequestStateLatch.runFrom (s : AsyncRequestStateLatch T) :
    List (AsyncInput T) → AsyncRequestStateLatch T × List Bool
  | [] => (s, [])
  | i :: tr =>
      let out := AsyncRequestStateLatch.runFrom (s.deliver i) tr
      match i with
      | AsyncInput.cancel r => (out.1, (s.cancel r).2 :: out.2)
      | _ => out

def AsyncRequestStateLatch.run (tr : List (AsyncInput T)) : AsyncRequestStateLatch T :=
  (AsyncRequestStateLatch.runFrom AsyncRequestStateLatch.init tr).1

/-- State of the AsyncRequestState version that forwards the source into the
request subject and derives everything from its events
(file src/src/request-state/async-request-state.ts).  It has no completed
field; cancel guards on the subscription being closed. -/
structure AsyncRequestStateFwd (T : Type) where
  requestEvents : List (ChanEvent T)
  resultEvents : List (ChanEvent T)
  resultSig : Option T
  loading : Bool
  errorSig : Option Err
  subClosed : Bool
  deriving DecidableEq

def AsyncRequestStateFwd.init : AsyncRequestStateFwd T :=
  { requestEvents := [], resultEvents := [], resultSig := none,
    loading := true, errorSig := none, subClosed := false }

def AsyncRequestStateFwd.failed (s : AsyncRequestStateFwd T) : Bool :=
  s.errorSig.isSome

/-- The request subject accepts next and the internal observer mirrors the
value into the result subject and the result signal.  Nothing happens when the
subject is already stopped. -/
def AsyncRequestStateFwd.reqNext (s : AsyncRequestStateFwd T) (v : T) :
    AsyncRequestStateFwd T :=
  if chanStopped s.requestEvents then s else
  { s with requestEvents := chanNext s.requestEvents v,
           resultEvents := chanNext s.resultEvents v,
           resultSig := some v }

/-- The request subject accepts an error and the internal observer stores the
normalised error, completes the result subject and clears loading. -/
def AsyncRequestStateFwd.reqError (s : AsyncRequestStateFwd T) (e : ErrVal) :
    AsyncRequestStateFwd T :=
  if chanStopped s.requestEvents then s else
  { s with requestEvents := chanError s.requestEvents e,
           resultEvents := chanComplete s.resultEvents,
           loading := false,
           errorSig := some (parseError e) }

/-- The request subject accepts a completion and the internal observer
completes the result subject and clears loading. -/
def AsyncRequestStateFwd.reqComplete (s : AsyncRequestStateFwd T) :
    AsyncRequestStateFwd T :=
  if chanStopped s.requestEvents then s else
  { s with requestEvents := chanComplete s.requestEvents,
           resultEvents := chanComplete s.resultEvents,
           loading := false }

/-- cancel of the forwarding version: guard on subscription closed,
unsubscribe, raise the processed reason on the request subject. -/
def AsyncRequestStateFwd.cancel (s : AsyncRequestStateFwd T) (reason : Option CancelReason) :
    AsyncRequestStateFwd T × Bool :=
  if s.subClosed then (s, false) else
  (AsyncRequestStateFwd.reqError { s with subClosed := true } (fullError reason), true)

def AsyncRequestStateFwd.deliver (s : AsyncRequestStateFwd T) :
    AsyncInput T → AsyncRequestStateFwd T
  | AsyncInput.srcValue v =>
      if s.subClosed then s else
      AsyncRequestStateFwd.reqComplete
        (AsyncRequestStateFwd.reqNext { s with subClosed := true } v)
  | AsyncInput.srcError e =>
      if s.subClosed then s else
      AsyncRequestStateFwd.reqError { s with subClosed := true } e
  | AsyncInput.srcComplete =>
      if s.subClosed then s else
      AsyncRequestStateFwd.reqComplete { s with subClosed := true }
  | AsyncInput.cancel r => (s.cancel r).1

def AsyncRequestStateFwd.runFrom (s : AsyncRequestStateFwd T) :
    List (AsyncInput T) → AsyncRequestStateFwd T × List Bool
  | [] => (s, [])
  | i :: tr =>
      let out := AsyncRequestStateFwd.runFrom (s.deliver i) tr
      match i with
      | AsyncInput.cancel r => (out.1, (s.cancel r).2 :: out.2)
      | _ => out

def AsyncRequestStateFwd.run (tr : List (AsyncInput T)) : AsyncRequestStateFwd T :=
  (AsyncRequestStateFwd.runFrom AsyncRequestStateFwd.init tr).1

/-- Number of source signals (value, error or completion) in a trace. -/
def srcSignalCount : List (AsyncInput T) → Nat
  | [] => 0
  | AsyncInput.srcValue _ :: tr => srcSignalCount tr + 1
  | AsyncInput.srcError _ :: tr => srcSignalCount tr + 1
  | AsyncInput.srcComplete :: tr => srcSignalCount tr + 1
  | AsyncInput.cancel _ :: tr => srcSignalCount tr

/-- The observable outcome of an AsyncRequestState: both channels, the three
signal snapshots and the derived failed flag. -/
structure AsyncObs (T : Type) where
  requestEvents : List (ChanEvent T)
  resultEvents : List (ChanEvent T)
  resultSig : Option T
  loading : Bool
  errorSig : Option Err
  failed : Bool
  deriving DecidableEq

def AsyncRequestStateLatch.obs (s : AsyncRequestStateLatch T) : AsyncObs T :=
  { requestEvents := s.requestEvents, resultEvents := s.resultEvents,
    resultSig := s.resultSig, loading := s.loading, errorSig := s.errorSig,
    failed := s.failed }

def AsyncRequestStateFwd.obs (s : AsyncRequestStateFwd T) : AsyncObs T :=
  { requestEvents := s.requestEvents, resultEvents := s.resultEvents,
    resultSig := s.resultSig, loading := s.loading, errorSig := s.errorSig,
    failed := s.failed }

/-! LoadingRequestState, the perpetually pending variant
(file loading-request-state.ts). -/

/-- State of a LoadingRequestState: the plain request subject (with its rxjs
closed field, set only by an unsubscribe call that this class never makes, and
distinct from being stopped by complete) and the loading signal.  The result
signal is constantly undefined, error constantly undefined, failed constantly
false. -/
structure LoadingRequestState (T : Type) where
  requestEvents : List (ChanEvent T)
  requestClosed : Bool
  loading : Bool
  deriving DecidableEq

def LoadingRequestState.init : LoadingRequestState T :=
  { requestEvents := [], requestClosed := false, loading := true }

/-- cancel: guard on the subject being closed (never true here), complete the
subject, clear loading, return false. -/
def LoadingRequestState.cancel (s : LoadingRequestState T) : LoadingRequestState T × Bool :=
  if s.requestClosed then (s, false) else
  ({ s with requestEvents := chanComplete s.requestEvents, loading := false }, false)

/-- The state after n cancel calls. -/
def LoadingRequestState.run : Nat → LoadingRequestState T
  | 0 => LoadingRequestState.init
  | n + 1 => ((LoadingRequestState.run n).cancel).1

/-! StaticRequestState, the immediate variant (tail of src/src/operators.ts
concatenation), EmptyRequestState and ErrorRequestState (src/unnamed/part_003). -/

/-- State of a StaticRequestState: only the constructor value. -/
structure StaticRequestState (T : Type) where
  value : T
  deriving DecidableEq

/-- request$ is of(value): one value then completion, replayed per subscriber. -/
def StaticRequestState.requestEvents (s : StaticRequestState T) : List (ChanEvent T) :=
  [ChanEvent.next s.value, ChanEvent.complete]

def StaticRequestState.result (s : StaticRequestState T) : Option T := some s.value

def StaticRequestState.loading : Bool := false

def StaticRequestState.errorSig : Option Err := none

/-- cancel returns false and touches nothing. -/
def StaticRequestState.cancel (s : StaticRequestState T) : StaticRequestState T × Bool :=
  (s, false)

/-- The overridden then of StaticRequestState invokes the value callback
synchronously with the constructor value, exactly once. -/
def StaticRequestState.thenRun (s : StaticRequestState T) : List (ThenEvent T) :=
  [ThenEvent.value s.value]

/-- EmptyRequestState request$ is EMPTY: completion on subscribe, no value. -/
def EmptyRequestState.requestEvents : List (ChanEvent T) := [ChanEvent.complete]

def EmptyRequestState.result : Option T := none

def EmptyRequestState.loading : Bool := false

def EmptyRequestState.errorSig : Option Err := none

def EmptyRequestState.failed : Bool := false

def EmptyRequestState.cancel : Bool := false

/-- State of an ErrorRequestState.  The class stores the error signal snapshot
and, implicitly, the getError factory handed to throwError.  An impure factory
is modelled by the sequence of its invocation results (invocation i yields
factory i), which also encodes allocation identity: a factory allocating a
fresh Error object per call yields pairwise distinguishable results.  The state
records how many invocations have happened. -/
structure ErrorRequestState where
  calls : Nat
  errorSig : Err
  deriving DecidableEq

/-- The constructor invokes getError once for the error signal and hands the
factory itself to throwError for the request channel. -/
def ErrorRequestState.make (factory : Nat → Err) : ErrorRequestState :=
  { calls := 1, errorSig := factory 0 }

def ErrorRequestState.loading : Bool := false

def ErrorRequestState.failed : Bool := true

def ErrorRequestState.result : Option T := none

/-- cancel returns false and touches nothing. -/
def ErrorRequestState.cancel (s : ErrorRequestState) : ErrorRequestState × Bool :=
  (s, false)

/-- Each subscription to request$ (one per then, catch, finally or subscribe
call) makes throwError invoke the factory once more; the subscriber observes
that invocation result as its error. -/
def ErrorRequestState.subscribeStep (factory : Nat → Err) (s : ErrorRequestState) :
    ErrorRequestState × Err :=
  ({ calls := s.calls + 1, errorSig := s.errorSig }, factory s.calls)

/-- n successive subscriptions, collecting the error each subscriber observes. -/
def ErrorRequestState.runSubs (factory : Nat → Err) (s : ErrorRequestState) :
    Nat → ErrorRequestState × List Err
  | 0 => (s, [])
  | n + 1 =>
      let st := ErrorRequestState.subscribeStep factory s
      let rest := ErrorRequestState.runSubs factory st.1 n
      (rest.1, st.2 :: rest.2)

/-- The request channel events one subscriber observes, invocation i of the
factory having produced its error. -/
def ErrorRequestState.requestEventsAt (factory : Nat → Err) (i : Nat) : List (ChanEvent T) :=
  [ChanEvent.fail (ErrVal.err (factory i))]

/-- Argument of the errorRequestState constructor facade: an Error instance or
a factory. -/
inductive ErrorArg where
  | errInst (e : Err)
  | factory (f : Nat → Err)

/-- The facade wraps an Error instance into a constant thunk and passes a
factory through (constructors.ts). -/
def ErrorArg.toFactory : ErrorArg → Nat → Err
  | ErrorArg.errInst e => fun _ => e
  | ErrorArg.factory f => f

def errorRequestState (arg : ErrorArg) : ErrorRequestState :=
  ErrorRequestState.make arg.toFactory

/-! The constructor facade and the trackers
(constructors.ts and request-tracker.ts). -/

/-- A JavaScript runtime error thrown while running tracker code. -/
inductive JsRuntimeError where
  | typeError (msg : String)
  deriving DecidableEq

/-- The observable snapshots of an IRequestState, as read by a tracker through
the interface. -/
structure IRequestState where
  loading : Bool
  errSig : Option Err
  failed : Bool
  deriving DecidableEq

/-- The snapshots of an EmptyRequestState. -/
def emptyRequestStateView : IRequestState :=
  { loading := false, errSig := none, failed := false }

/-- constructors.ts builds the facade by casting valueRequestState to the
AltConstructors shape and then assigns only the writable and error members;
the declared empty and loading members are never assigned. -/
def facadeHasEmpty : Bool := false

/-- Evaluating requestState.empty() therefore calls undefined and throws a
TypeError rather than producing an EmptyRequestState. -/
def requestStateEmptyCall : Except JsRuntimeError IRequestState :=
  if facadeHasEmpty then Except.ok emptyRequestStateView
  else Except.error (JsRuntimeError.typeError ("requestState.empty is not a function"))

/-- State of a RequestTracker: the writable signal holding the current
IRequestState reference. -/
structure RequestTracker where
  current : IRequestState
  deriving DecidableEq

/-- The RequestTracker constructor: signal(request or-else requestState.empty()).
With no argument it evaluates requestState.empty(), which throws. -/
def requestTrackerNew (request : Option IRequestState) : Except JsRuntimeError RequestTracker :=
  match request with
  | some r => Except.ok { current := r }
  | none => Except.map (fun r => { current := r }) requestStateEmptyCall

/-- set replaces the held reference. -/
def RequestTracker.set (_t : RequestTracker) (r : IRequestState) : RequestTracker :=
  { current := r }

/-- reset: sets the current state to requestState.empty(), which throws. -/
def RequestTracker.reset (_t : RequestTracker) : Except JsRuntimeError RequestTracker :=
  Except.map (fun r => { current := r }) requestStateEmptyCall

/-- The derived loading signal reads loading of whichever state is current. -/
def RequestTracker.loading (t : RequestTracker) : Bool := t.current.loading

/-- The derived error signal reads error of whichever state is current. -/
def RequestTracker.error (t : RequestTracker) : Option Err := t.current.errSig

/-- The derived failed signal reads failed of whichever state is current. -/
def RequestTracker.failed (t : RequestTracker) : Bool := t.current.failed

/-- The ValueRequestTracker constructor first runs super() with no argument,
which evaluates requestState.empty() and throws, before its own body could
store the supplied initial state. -/
def valueRequestTrackerNew (request : Option IRequestState) :
    Except JsRuntimeError RequestTracker :=
  match requestTrackerNew none with
  | Except.error e => Except.error e
  | Except.ok base =>
      match request with
      | some r => Except.ok (base.set r)
      | none => Except.map (fun r => RequestTracker.set base r) requestStateEmptyCall

/-! Reachability invariants and the coupling relation between the two
AsyncRequestState implementations. -/

/-- Invariant of reachable latch-version states: the completed latch coincides
with the subscription being closed, nothing was emitted before the first
terminal transition, and the request channel is disciplined. -/
def LatchInv (s : AsyncRequestStateLatch T) : Prop :=
  s.completed = s.subClosed ∧
  (s.completed = false → s.requestEvents = []) ∧
  nextCount s.requestEvents ≤ 1 ∧ terminalCount s.requestEvents ≤ 1

/-- Invariant of reachable forwarding-version states: nothing was emitted while
the subscription is open, a stopped request subject means the subscription is
closed, and the request channel is disciplined. -/
def FwdInv (s : AsyncRequestStateFwd T) : Prop :=
  (s.subClosed = false → s.requestEvents = []) ∧
  (chanStopped s.requestEvents = true → s.subClosed = true) ∧
  nextCount s.requestEvents ≤ 1 ∧ terminalCount s.requestEvents ≤ 1

/-- Invariant of reachable WritableRequestState states. -/
def WritableInv (s : WritableRequestState T) : Prop :=
  (s.completed = false → s.requestEvents = []) ∧
  (chanStopped s.requestEvents = true → s.completed = true) ∧
  nextCount s.requestEvents ≤ 1 ∧ terminalCount s.requestEvents ≤ 1

/-- Coupling between the forwarding and the latch implementation: all
observables agree, the subscription guards agree, and the latch state is
reachable. -/
def FwdLatchCoupled (a : AsyncRequestStateFwd T) (b : AsyncRequestStateLatch T) : Prop :=
  a.requestEvents = b.requestEvents ∧ a.resultEvents = b.resultEvents ∧
  a.resultSig = b.resultSig ∧ a.loading = b.loading ∧ a.errorSig = b.errorSig ∧
  a.subClosed = b.subClosed ∧ b.completed = b.subClosed ∧
  (b.subClosed = false → b.requestEvents = [])

/-! Helper lemmas shared by the claim theorems. -/

theorem thenDeliveries_length_le (es : List (ChanEvent T)) :
    (thenDeliveries es).length ≤ 1 := by
  cases es with
  | nil => simp [thenDeliveries]
  | cons e es => cases e <;> simp [thenDeliveries]

theorem LoadingRequestState.run_succ_eq (n : Nat) :
    LoadingRequestState.run (T := T) (n + 1) =
      { requestEvents := [ChanEvent.complete], requestClosed := false, loading := false } := by
  induction n with
  | zero =>
      simp [LoadingRequestState.run, LoadingRequestState.cancel, LoadingRequestState.init,
        chanComplete, chanStopped]
  | succ n ih =>
      have h : LoadingRequestState.run (T := T) (n + 1 + 1) =
          ((LoadingRequestState.run (T := T) (n + 1)).cancel).1 := rfl
      rw [h, ih]
      simp [LoadingRequestState.cancel, chanComplete, chanStopped]

theorem ErrorRequestState.runSubs_spec (f : Nat → Err) (n : Nat) :
    ∀ s : ErrorRequestState,
      (ErrorRequestState.runSubs f s n).1.calls = s.calls + n ∧
      (ErrorRequestState.runSubs f s n).1.errorSig = s.errorSig ∧
      (ErrorRequestState.runSubs f s n).2 = (List.range n).map (fun j => f (s.calls + j)) := by
  induction n with
  | zero => intro s; simp [ErrorRequestState.runSubs]
  | succ n ih =>
      intro s
      obtain ⟨h1, h2, h3⟩ := ih { calls := s.calls + 1, errorSig := s.errorSig }
      refine ⟨?_, ?_, ?_⟩
      · simp [ErrorRequestState.runSubs, ErrorRequestState.subscribeStep, h1]
        omega
      · simpa [ErrorRequestState.runSubs, ErrorRequestState.subscribeStep] using h2
      · simp [ErrorRequestState.runSubs, ErrorRequestState.subscribeStep, h3,
          List.range_succ_eq_map, List.map_map]
        intro a _
        congr 1
        omega

/-! Claim theorems. -/

/-- C2: the claim says a RequestTracker constructed with no argument, and
reset(), establish an Empty sentinel state with loading=false, error=undefined,
failed=false, with reset terminating normally.  The Empty sentinel does read
that way, but the facade never receives its empty member, so the no-argument
constructor and reset() both throw a TypeError instead of producing it. -/
theorem C2_reset_empty_bug :
    requestTrackerNew none =
      Except.error (JsRuntimeError.typeError ("requestState.empty is not a function")) ∧
    (∀ t : RequestTracker,
      t.reset =
        Except.error (JsRuntimeError.typeError ("requestState.empty is not a function"))) ∧
    emptyRequestStateView.loading = false ∧
    emptyRequestStateView.errSig = none ∧
    emptyRequestStateView.failed = false :=
  ⟨rfl, fun _ => rfl, rfl, rfl, rfl⟩

/-- C3: derived tracker signals delegate to whichever state current points at,
and after set(stateA) then set(stateB) all three reads reflect stateB; this
holds for RequestTracker, but every ValueRequestTracker construction (with or
without an initial state) throws a TypeError from super(), because super()
evaluates the never-assigned requestState.empty member. -/
theorem C3_tracker_delegation_bug :
    (∀ r : Option IRequestState,
      valueRequestTrackerNew r =
        Except.error (JsRuntimeError.typeError ("requestState.empty is not a function"))) ∧
    (∀ t : RequestTracker,
      t.loading = t.current.loading ∧ t.error = t.current.errSig ∧ t.failed = t.current.failed) ∧
    (∀ (t : RequestTracker) (a b : IRequestState),
      ((t.set a).set b).loading = b.loading ∧
      ((t.set a).set b).error = b.errSig ∧
      ((t.set a).set b).failed = b.failed ∧
      (t.set a).loading = a.loading ∧
      (t.set a).error = a.errSig ∧
      (t.set a).failed = a.failed) := by
  refine ⟨?_, ?_, ?_⟩
  · intro r; cases r <;> rfl
  · intro t; exact ⟨rfl, rfl, rfl⟩
  · intro t a b; exact ⟨rfl, rfl, rfl, rfl, rfl, rfl⟩

/-- C6: the claim says setValue on a not-yet-completed Externally-Driven state
latches, emits the value on the request channel and on the result channel
(which then complete), sets the result snapshot and clears loading.  The code
latches, serves the request channel, the snapshot and loading, but never
touches the result subject: the result channel stays open and empty. -/
theorem C6_setValue_result_channel_bug :
    ((WritableRequestState.init (T := Nat)).setValue 42).completed = true ∧
    ((WritableRequestState.init (T := Nat)).setValue 42).requestEvents =
      [ChanEvent.next 42, ChanEvent.complete] ∧
    ((WritableRequestState.init (T := Nat)).setValue 42).resultSig = some 42 ∧
    ((WritableRequestState.init (T := Nat)).setValue 42).loading = false ∧
    ((WritableRequestState.init (T := Nat)).setValue 42).resultEvents = [] ∧
    ((WritableRequestState.init (T := Nat)).setValue 42).setError ErrVal.undef =
      (WritableRequestState.init (T := Nat)).setValue 42 := by
  decide

/-- C8: on the Perpetual-Pending variant loading is true before any cancel
call; the first cancel completes the underlying channel without emitting a
value, clears loading, and still returns false. -/
theorem C8_loading_cancel :
    ∀ (T : Type),
      (LoadingRequestState.run (T := T) 0).loading = true ∧
      (LoadingRequestState.init (T := T)).loading = true ∧
      ((LoadingRequestState.init (T := T)).cancel).2 = false ∧
      ((LoadingRequestState.init (T := T)).cancel).1.requestEvents = [ChanEvent.complete] ∧
      nextCount ((LoadingRequestState.init (T := T)).cancel).1.requestEvents = 0 ∧
      ((LoadingRequestState.init (T := T)).cancel).1.loading = false := by
  intro T
  refine ⟨rfl, rfl, ?_, ?_, ?_, ?_⟩ <;>
    simp [LoadingRequestState.init, LoadingRequestState.cancel, chanComplete, chanStopped,
      nextCount]

/-- C9: asReadonly on the Externally-Driven variant returns the very same
object, so every observable of the facade coincides with the original at every
moment. -/
theorem C9_asReadonly_identity :
    ∀ (T : Type) (w : WritableRequestState T),
      w.asReadonly = w ∧
      w.asReadonly.loading = w.loading ∧
      w.asReadonly.resultSig = w.resultSig ∧
      w.asReadonly.errorSig = w.errorSig ∧
      w.asReadonly.failed = w.failed ∧
      w.asReadonly.requestEvents = w.requestEvents ∧
      w.asReadonly.resultEvents = w.resultEvents ∧
      w.asReadonly.cancelledSig = w.cancelledSig ∧
      w.asReadonly.cancelledEvents = w.cancelledEvents :=
  fun _ _ => ⟨rfl, rfl, rfl, rfl, rfl, rfl, rfl, rfl, rfl⟩

/-- C4 counterexample: with the factory whose i-th invocation yields an Error
labelled i (in JavaScript, a factory allocating a fresh Error object per call),
construction plus two then calls invoke the factory three times, not exactly
once, and the two then subscribers observe errors distinct from each other and
from the error signal. -/
theorem C4_counterexample :
    (ErrorRequestState.runSubs (fun i => Err.error (Nat.repr i))
        (ErrorRequestState.make (fun i => Err.error (Nat.repr i))) 2).1.calls = 3 ∧
    (ErrorRequestState.runSubs (fun i => Err.error (Nat.repr i))
        (ErrorRequestState.make (fun i => Err.error (Nat.repr i))) 2).1.calls ≠ 1 ∧
    (ErrorRequestState.runSubs (fun i => Err.error (Nat.repr i))
        (ErrorRequestState.make (fun i => Err.error (Nat.repr i))) 2).2 =
      [Err.error ("1"), Err.error ("2")] ∧
    Err.error ("1") ≠ Err.error ("2") ∧
    Err.error ("1") ≠
      (ErrorRequestState.make (fun i => Err.error (Nat.repr i))).errorSig := by
  decide

/-- C4 amended: the Error variant invokes the factory once at construction for
the error signal, and then once more per subscription to the request channel
(each then/catch/subscribe call), because the channel is throwError(getError);
subscriber i observes the result of invocation i+1, not necessarily the
construction-time instance.  When the facade was handed an Error instance, the
wrapped thunk is constant, so every observer does see that one instance. -/
theorem C4_amended :
    ∀ (f : Nat → Err) (n : Nat),
      (ErrorRequestState.runSubs f (ErrorRequestState.make f) n).1.calls = 1 + n ∧
      (ErrorRequestState.runSubs f (ErrorRequestState.make f) n).1.errorSig = f 0 ∧
      (ErrorRequestState.runSubs f (ErrorRequestState.make f) n).2 =
        (List.range n).map (fun j => f (1 + j)) ∧
      (∀ e : Err,
        (ErrorRequestState.runSubs (ErrorArg.toFactory (ErrorArg.errInst e))
            (errorRequestState (ErrorArg.errInst e)) n).2 = List.replicate n e ∧
        (errorRequestState (ErrorArg.errInst e)).errorSig = e) := by
  intro f n
  obtain ⟨h1, h2, h3⟩ := ErrorRequestState.runSubs_spec f n (ErrorRequestState.make f)
  refine ⟨?_, ?_, ?_, ?_⟩
  · simpa [ErrorRequestState.make, Nat.add_comm] using h1
  · simpa [ErrorRequestState.make] using h2
  · simpa [ErrorRequestState.make] using h3
  · intro e
    obtain ⟨_, _, g3⟩ := ErrorRequestState.runSubs_spec (ErrorArg.toFactory (ErrorArg.errInst e))
      n (errorRequestState (ErrorArg.errInst e))
    constructor
    · rw [g3]
      simp [ErrorArg.toFactory, List.eq_replicate_iff]
    · rfl

/-- C5 counterexample: cancelling a fresh Externally-Driven state or a fresh
instance of either Async-Source implementation with the reason omitted does
perform the rejected transition, but the error signal ends up holding the
normalisation of undefined, which is not the cancellation kind. -/
theorem C5_counterexample :
    ((WritableRequestState.init (T := Nat)).cancel none).2 = true ∧
    ((WritableRequestState.init (T := Nat)).cancel none).1.errorSig =
      some (Err.error ("undefined")) ∧
    isCancelledKind ((WritableRequestState.init (T := Nat)).cancel none).1.errorSig = false ∧
    ((AsyncRequestStateFwd.init (T := Nat)).cancel none).2 = true ∧
    isCancelledKind ((AsyncRequestStateFwd.init (T := Nat)).cancel none).1.errorSig = false ∧
    ((AsyncRequestStateLatch.init (T := Nat)).cancel none).2 = true ∧
    isCancelledKind ((AsyncRequestStateLatch.init (T := Nat)).cancel none).1.errorSig = false := by
  decide

/-- C5 amended: on a not-yet-completed state, cancel() with the reason omitted
performs the rejected transition (returns true), but the error signal holds the
normalisation of the raw undefined reason, a plain Error rather than a
cancellation-kind Error; the cancellation-kind error appears exactly when a
message string is supplied. -/
theorem C5_amended :
    ∀ (T : Type) (s : WritableRequestState T) (a : AsyncRequestStateFwd T)
      (b : AsyncRequestStateLatch T) (m : String),
      (s.completed = false →
        (s.cancel none).2 = true ∧
        (s.cancel none).1.errorSig = some (parseError ErrVal.undef) ∧
        isCancelledKind ((s.cancel none).1.errorSig) = false ∧
        (s.cancel (some (CancelReason.str m))).1.errorSig =
          some (Err.cancelledError (some m))) ∧
      (a.subClosed = false → chanStopped a.requestEvents = false →
        (a.cancel none).2 = true ∧
        (a.cancel none).1.errorSig = some (parseError ErrVal.undef) ∧
        isCancelledKind ((a.cancel none).1.errorSig) = false ∧
        (a.cancel (some (CancelReason.str m))).1.errorSig =
          some (Err.cancelledError (some m))) ∧
      (b.completed = false →
        (b.cancel none).2 = true ∧
        (b.cancel none).1.errorSig = some (parseError ErrVal.undef) ∧
        isCancelledKind ((b.cancel none).1.errorSig) = false ∧
        (b.cancel (some (CancelReason.str m))).1.errorSig =
          some (Err.cancelledError (some m))) := by
  intro T s a b m
  refine ⟨?_, ?_, ?_⟩
  · intro hc
    refine ⟨?_, ?_, ?_, ?_⟩ <;>
      simp [WritableRequestState.cancel, WritableRequestState.setError, hc, fullError,
        parseError, isCancelledKind]
  · intro hc hs
    refine ⟨?_, ?_, ?_, ?_⟩ <;>
      simp [AsyncRequestStateFwd.cancel, AsyncRequestStateFwd.reqError, hc, hs, fullError,
        parseError, isCancelledKind]
  · intro hc
    refine ⟨?_, ?_, ?_, ?_⟩ <;>
      simp [AsyncRequestStateLatch.cancel, AsyncRequestStateLatch.onError, hc, fullError,
        parseError, isCancelledKind]

/-- C5 witness: the amended statement at fresh Nat-typed states with message
string msg. -/
theorem C5_witness :
    ((WritableRequestState.init (T := Nat)).cancel (some (CancelReason.str ("msg")))).1.errorSig =
      some (Err.cancelledError (some ("msg"))) ∧
    ((AsyncRequestStateFwd.init (T := Nat)).cancel none).1.errorSig =
      some (parseError ErrVal.undef) ∧
    ((AsyncRequestStateLatch.init (T := Nat)).cancel none).2 = true := by
  have h := C5_amended Nat WritableRequestState.init AsyncRequestStateFwd.init
    AsyncRequestStateLatch.init ("msg")
  obtain ⟨h1, h2, h3⟩ := h
  exact ⟨(h1 (by decide)).2.2.2, (h2 (by decide) (by decide)).2.1, (h3 (by decide)).1⟩

/-! Invariant lemmas for the stateful variants. -/

theorem latch_runFrom_fst_cons (s : AsyncRequestStateLatch T)
    (i : AsyncInput T) (tr : List (AsyncInput T)) :
    (AsyncRequestStateLatch.runFrom s (i :: tr)).1 =
      (AsyncRequestStateLatch.runFrom (s.deliver i) tr).1 := by
  cases i <;> rfl

theorem fwd_runFrom_fst_cons (s : AsyncRequestStateFwd T)
    (i : AsyncInput T) (tr : List (AsyncInput T)) :
    (AsyncRequestStateFwd.runFrom s (i :: tr)).1 =
      (AsyncRequestStateFwd.runFrom (s.deliver i) tr).1 := by
  cases i <;> rfl

theorem latch_deliver_inv {s : AsyncRequestStateLatch T} (h : LatchInv s) (i : AsyncInput T) :
    LatchInv (s.deliver i) := by
  obtain ⟨h1, h2, h3, h4⟩ := h
  cases i with
  | srcValue v =>
      cases hsc : s.subClosed with
      | true => simpa [AsyncRequestStateLatch.deliver, hsc] using ⟨h1, h2, h3, h4⟩
      | false =>
          have hc : s.completed = false := by rw [h1, hsc]
          have he := h2 hc
          simp [LatchInv, AsyncRequestStateLatch.deliver, hsc,
            AsyncRequestStateLatch.onValue, AsyncRequestStateLatch.onCompleted, hc, he,
            chanNext, chanComplete, chanStopped, nextCount, terminalCount]
  | srcError e =>
      cases hsc : s.subClosed with
      | true => simpa [AsyncRequestStateLatch.deliver, hsc] using ⟨h1, h2, h3, h4⟩
      | false =>
          have hc : s.completed = false := by rw [h1, hsc]
          have he := h2 hc
          simp [LatchInv, AsyncRequestStateLatch.deliver, hsc,
            AsyncRequestStateLatch.onError, hc, he,
            chanError, chanComplete, chanStopped, nextCount, terminalCount]
  | srcComplete =>
      cases hsc : s.subClosed with
      | true => simpa [AsyncRequestStateLatch.deliver, hsc] using ⟨h1, h2, h3, h4⟩
      | false =>
          have hc : s.completed = false := by rw [h1, hsc]
          have he := h2 hc
          simp [LatchInv, AsyncRequestStateLatch.deliver, hsc,
            AsyncRequestStateLatch.onCompleted, hc, he,
            chanComplete, chanStopped, nextCount, terminalCount]
  | cancel r =>
      cases hc : s.completed with
      | true => simpa [AsyncRequestStateLatch.deliver, AsyncRequestStateLatch.cancel, hc]
          using ⟨h1, h2, h3, h4⟩
      | false =>
          have he := h2 hc
          simp [LatchInv, AsyncRequestStateLatch.deliver, AsyncRequestStateLatch.cancel,
            AsyncRequestStateLatch.onError, hc, he,
            chanError, chanComplete, chanStopped, nextCount, terminalCount]

theorem latch_runFrom_inv (tr : List (AsyncInput T)) :
    ∀ s : AsyncRequestStateLatch T, LatchInv s →
      LatchInv (AsyncRequestStateLatch.runFrom s tr).1 := by
  induction tr with
  | nil => intro s h; exact h
  | cons i tr ih =>
      intro s h
      rw [latch_runFrom_fst_cons]
      exact ih _ (latch_deliver_inv h i)

theorem latch_run_inv (tr : List (AsyncInput T)) : LatchInv (AsyncRequestStateLatch.run tr) := by
  refine latch_runFrom_inv tr AsyncRequestStateLatch.init ?_
  simp [LatchInv, AsyncRequestStateLatch.init, nextCount, terminalCount]

theorem fwd_deliver_inv {s : AsyncRequestStateFwd T} (h : FwdInv s) (i : AsyncInput T) :
    FwdInv (s.deliver i) := by
  obtain ⟨h1, h2, h3, h4⟩ := h
  cases i with
  | srcValue v =>
      cases hsc : s.subClosed with
      | true => simpa [AsyncRequestStateFwd.deliver, hsc] using ⟨h1, h2, h3, h4⟩
      | false =>
          have he := h1 hsc
          simp [FwdInv, AsyncRequestStateFwd.deliver, hsc,
            AsyncRequestStateFwd.reqNext, AsyncRequestStateFwd.reqComplete, he,
            chanNext, chanComplete, chanStopped, nextCount, terminalCount]
  | srcError e =>
      cases hsc : s.subClosed with
      | true => simpa [AsyncRequestStateFwd.deliver, hsc] using ⟨h1, h2, h3, h4⟩
      | false =>
          have he := h1 hsc
          simp [FwdInv, AsyncRequestStateFwd.deliver, hsc,
            AsyncRequestStateFwd.reqError, he,
            chanError, chanComplete, chanStopped, nextCount, terminalCount]
  | srcComplete =>
      cases hsc : s.subClosed with
      | true => simpa [AsyncRequestStateFwd.deliver, hsc] using ⟨h1, h2, h3, h4⟩
      | false =>
          have he := h1 hsc
          simp [FwdInv, AsyncRequestStateFwd.deliver, hsc,
            AsyncRequestStateFwd.reqComplete, he,
            chanComplete, chanStopped, nextCount, terminalCount]
  | cancel r =>
      cases hsc : s.subClosed with
      | true => simpa [AsyncRequestStateFwd.deliver, AsyncRequestStateFwd.cancel, hsc]
          using ⟨h1, h2, h3, h4⟩
      | false =>
          have he := h1 hsc
          simp [FwdInv, AsyncRequestStateFwd.deliver, AsyncRequestStateFwd.cancel, hsc,
            AsyncRequestStateFwd.reqError, he,
            chanError, chanComplete, chanStopped, nextCount, terminalCount]

theorem fwd_runFrom_inv (tr : List (AsyncInput T)) :
    ∀ s : AsyncRequestStateFwd T, FwdInv s →
      FwdInv (AsyncRequestStateFwd.runFrom s tr).1 := by
  induction tr with
  | nil => intro s h; exact h
  | cons i tr ih =>
      intro s h
      rw [fwd_runFrom_fst_cons]
      exact ih _ (fwd_deliver_inv h i)

theorem fwd_run_inv (tr : List (AsyncInput T)) : FwdInv (AsyncRequestStateFwd.run tr) := by
  refine fwd_runFrom_inv tr AsyncRequestStateFwd.init ?_
  simp [FwdInv, AsyncRequestStateFwd.init, nextCount, terminalCount, chanStopped]

theorem writable_step_inv {s : WritableRequestState T} (h : WritableInv s) (i : WInput T) :
    WritableInv (s.step i) := by
  obtain ⟨h1, h2, h3, h4⟩ := h
  cases i with
  | setValue v =>
      cases hc : s.completed with
      | true => simpa [WritableRequestState.step, WritableRequestState.setValue, hc]
          using ⟨h1, h2, h3, h4⟩
      | false =>
          have he := h1 hc
          simp [WritableInv, WritableRequestState.step, WritableRequestState.setValue, hc, he,
            chanNext, chanComplete, chanStopped, nextCount, terminalCount]
  | setError e =>
      cases hc : s.completed with
      | true => simpa [WritableRequestState.step, WritableRequestState.setError, hc]
          using ⟨h1, h2, h3, h4⟩
      | false =>
          have he := h1 hc
          simp [WritableInv, WritableRequestState.step, WritableRequestState.setError, hc, he,
            chanError, chanComplete, chanStopped, nextCount, terminalCount]
  | cancel r =>
      cases hc : s.completed with
      | true => simpa [WritableRequestState.step, WritableRequestState.cancel, hc]
          using ⟨h1, h2, h3, h4⟩
      | false =>
          have he := h1 hc
          simp [WritableInv, WritableRequestState.step, WritableRequestState.cancel,
            WritableRequestState.setError, hc, he,
            chanError, chanComplete, chanStopped, nextCount, terminalCount]

theorem writable_run_inv (tr : List (WInput T)) : WritableInv (WritableRequestState.run tr) := by
  have aux : ∀ (l : List (WInput T)) (s : WritableRequestState T), WritableInv s →
      WritableInv (l.foldl WritableRequestState.step s) := by
    intro l
    induction l with
    | nil => intro s h; exact h
    | cons i l ih => intro s h; exact ih _ (writable_step_inv h i)
  refine aux tr WritableRequestState.init ?_
  simp [WritableInv, WritableRequestState.init, nextCount, terminalCount, chanStopped]

/-! Coupling lemmas between the two AsyncRequestState implementations. -/

theorem coupled_deliver {a : AsyncRequestStateFwd T} {b : AsyncRequestStateLatch T}
    (h : FwdLatchCoupled a b) (i : AsyncInput T) :
    FwdLatchCoupled (a.deliver i) (b.deliver i) := by
  obtain ⟨e1, e2, e3, e4, e5, e6, e7, e8⟩ := h
  cases i with
  | srcValue v =>
      cases hsc : b.subClosed with
      | true =>
          have ha : a.subClosed = true := by rw [e6, hsc]
          simpa [AsyncRequestStateFwd.deliver, AsyncRequestStateLatch.deliver, ha, hsc]
            using ⟨e1, e2, e3, e4, e5, e6, e7, e8⟩
      | false =>
          have ha : a.subClosed = false := by rw [e6, hsc]
          have hc : b.completed = false := by rw [e7, hsc]
          have hbe : b.requestEvents = [] := e8 hsc
          have hae : a.requestEvents = [] := by rw [e1, hbe]
          simp [FwdLatchCoupled, AsyncRequestStateFwd.deliver, AsyncRequestStateLatch.deliver,
            ha, hsc, hc, hbe, hae,
            AsyncRequestStateFwd.reqNext, AsyncRequestStateFwd.reqComplete,
            AsyncRequestStateLatch.onValue, AsyncRequestStateLatch.onCompleted,
            chanNext, chanComplete, chanStopped, e2, e3, e4, e5]
  | srcError e =>
      cases hsc : b.subClosed with
      | true =>
          have ha : a.subClosed = true := by rw [e6, hsc]
          simpa [AsyncRequestStateFwd.deliver, AsyncRequestStateLatch.deliver, ha, hsc]
            using ⟨e1, e2, e3, e4, e5, e6, e7, e8⟩
      | false =>
          have ha : a.subClosed = false := by rw [e6, hsc]
          have hc : b.completed = false := by rw [e7, hsc]
          have hbe : b.requestEvents = [] := e8 hsc
          have hae : a.requestEvents = [] := by rw [e1, hbe]
          simp [FwdLatchCoupled, AsyncRequestStateFwd.deliver, AsyncRequestStateLatch.deliver,
            ha, hsc, hc, hbe, hae,
            AsyncRequestStateFwd.reqError, AsyncRequestStateLatch.onError,
            chanError, chanComplete, chanStopped, e2, e3, e4, e5]
  | srcComplete =>
      cases hsc : b.subClosed with
      | true =>
          have ha : a.subClosed = true := by rw [e6, hsc]
          simpa [AsyncRequestStateFwd.deliver, AsyncRequestStateLatch.deliver, ha, hsc]
            using ⟨e1, e2, e3, e4, e5, e6, e7, e8⟩
      | false =>
          have ha : a.subClosed = false := by rw [e6, hsc]
          have hc : b.completed = false := by rw [e7, hsc]
          have hbe : b.requestEvents = [] := e8 hsc
          have hae : a.requestEvents = [] := by rw [e1, hbe]
          simp [FwdLatchCoupled, AsyncRequestStateFwd.deliver, AsyncRequestStateLatch.deliver,
            ha, hsc, hc, hbe, hae,
            AsyncRequestStateFwd.reqComplete, AsyncRequestStateLatch.onCompleted,
            chanComplete, chanStopped, e2, e3, e4, e5]
  | cancel r =>
      cases hsc : b.subClosed with
      | true =>
          have ha : a.subClosed = true := by rw [e6, hsc]
          have hc : b.completed = true := by rw [e7, hsc]
          simpa [AsyncRequestStateFwd.deliver, AsyncRequestStateLatch.deliver,
            AsyncRequestStateFwd.cancel, AsyncRequestStateLatch.cancel, ha, hc]
            using ⟨e1, e2, e3, e4, e5, e6, e7, e8⟩
      | false =>
          have ha : a.subClosed = false := by rw [e6, hsc]
          have hc : b.completed = false := by rw [e7, hsc]
          have hbe : b.requestEvents = [] := e8 hsc
          have hae : a.requestEvents = [] := by rw [e1, hbe]
          simp [FwdLatchCoupled, AsyncRequestStateFwd.deliver, AsyncRequestStateLatch.deliver,
            AsyncRequestStateFwd.cancel, AsyncRequestStateLatch.cancel, ha, hsc, hc, hbe, hae,
            AsyncRequestStateFwd.reqError, AsyncRequestStateLatch.onError,
            chanError, chanComplete, chanStopped, e2, e3, e4, e5]

theorem coupled_cancel_ret {a : AsyncRequestStateFwd T} {b : AsyncRequestStateLatch T}
    (h : FwdLatchCoupled a b) (r : Option CancelReason) :
    (a.cancel r).2 = (b.cancel r).2 := by
  obtain ⟨_, _, _, _, _, e6, e7, _⟩ := h
  cases hsc : b.subClosed with
  | true =>
      have ha : a.subClosed = true := by rw [e6, hsc]
      have hc : b.completed = true := by rw [e7, hsc]
      simp [AsyncRequestStateFwd.cancel, AsyncRequestStateLatch.cancel, ha, hc]
  | false =>
      have ha : a.subClosed = false := by rw [e6, hsc]
      have hc : b.completed = false := by rw [e7, hsc]
      simp [AsyncRequestStateFwd.cancel, AsyncRequestStateLatch.cancel, ha, hc]

theorem coupled_runFrom (tr : List (AsyncInput T)) :
    ∀ (a : AsyncRequestStateFwd T) (b : AsyncRequestStateLatch T), FwdLatchCoupled a b →
      FwdLatchCoupled (AsyncRequestStateFwd.runFrom a tr).1
        (AsyncRequestStateLatch.runFrom b tr).1 ∧
      (AsyncRequestStateFwd.runFrom a tr).2 = (AsyncRequestStateLatch.runFrom b tr).2 := by
  induction tr with
  | nil => intro a b h; exact ⟨h, rfl⟩
  | cons i tr ih =>
      intro a b h
      obtain ⟨hc, hr⟩ := ih (a.deliver i) (b.deliver i) (coupled_deliver h i)
      cases i with
      | srcValue v =>
          refine ⟨?_, hr⟩
          rw [fwd_runFrom_fst_cons, latch_runFrom_fst_cons]
          exact hc
      | srcError e =>
          refine ⟨?_, hr⟩
          rw [fwd_runFrom_fst_cons, latch_runFrom_fst_cons]
          exact hc
      | srcComplete =>
          refine ⟨?_, hr⟩
          rw [fwd_runFrom_fst_cons, latch_runFrom_fst_cons]
          exact hc
      | cancel r =>
          constructor
          · rw [fwd_runFrom_fst_cons, latch_runFrom_fst_cons]
            exact hc
          · show (a.cancel r).2 :: (AsyncRequestStateFwd.runFrom (a.deliver (AsyncInput.cancel r)) tr).2 =
              (b.cancel r).2 :: (AsyncRequestStateLatch.runFrom (b.deliver (AsyncInput.cancel r)) tr).2
            rw [coupled_cancel_ret h r, hr]

/-! No-op lemmas after the first terminal transition. -/

theorem latch_completed_noop {s : AsyncRequestStateLatch T} (h : LatchInv s)
    (hc : s.completed = true) (i : AsyncInput T) : s.deliver i = s := by
  have hs : s.subClosed = true := by rw [← h.1, hc]
  cases i <;> simp [AsyncRequestStateLatch.deliver, AsyncRequestStateLatch.cancel, hs, hc]

theorem fwd_stopped_noop {s : AsyncRequestStateFwd T} (h : FwdInv s)
    (hst : chanStopped s.requestEvents = true) (i : AsyncInput T) : s.deliver i = s := by
  have hs : s.subClosed = true := h.2.1 hst
  cases i <;> simp [AsyncRequestStateFwd.deliver, AsyncRequestStateFwd.cancel, hs]

theorem writable_completed_noop {s : WritableRequestState T} (hc : s.completed = true)
    (i : WInput T) : s.step i = s := by
  cases i <;> simp [WritableRequestState.step, WritableRequestState.setValue,
    WritableRequestState.setError, WritableRequestState.cancel, hc]

/-- C1: for every Result-State variant a terminal transition occurs at most
once.  For the stateful variants (both Async-Source implementations and the
Externally-Driven one) every reachable request channel has emitted at most one
value and accepted at most one terminal event, a then subscriber receives at
most one callback invocation, and once the first terminal transition happened
every further transition attempt (source value, source error, source
completion, setValue, setError or cancel) leaves the state unchanged.  The
Perpetual-Pending channel never emits a value and accepts at most one terminal
event, and the degenerate variants deliver exactly one then callback. -/
theorem C1_terminal_once :
    (∀ (T : Type) (tr : List (AsyncInput T)) (i : AsyncInput T),
      nextCount (AsyncRequestStateLatch.run tr).requestEvents ≤ 1 ∧
      terminalCount (AsyncRequestStateLatch.run tr).requestEvents ≤ 1 ∧
      (thenDeliveries (AsyncRequestStateLatch.run tr).requestEvents).length ≤ 1 ∧
      ((AsyncRequestStateLatch.run tr).completed = true →
        (AsyncRequestStateLatch.run tr).deliver i = AsyncRequestStateLatch.run tr)) ∧
    (∀ (T : Type) (tr : List (AsyncInput T)) (i : AsyncInput T),
      nextCount (AsyncRequestStateFwd.run tr).requestEvents ≤ 1 ∧
      terminalCount (AsyncRequestStateFwd.run tr).requestEvents ≤ 1 ∧
      (thenDeliveries (AsyncRequestStateFwd.run tr).requestEvents).length ≤ 1 ∧
      (chanStopped (AsyncRequestStateFwd.run tr).requestEvents = true →
        (AsyncRequestStateFwd.run tr).deliver i = AsyncRequestStateFwd.run tr)) ∧
    (∀ (T : Type) (tr : List (WInput T)) (i : WInput T),
      nextCount (WritableRequestState.run tr).requestEvents ≤ 1 ∧
      terminalCount (WritableRequestState.run tr).requestEvents ≤ 1 ∧
      (thenDeliveries (WritableRequestState.run tr).requestEvents).length ≤ 1 ∧
      ((WritableRequestState.run tr).completed = true →
        (WritableRequestState.run tr).step i = WritableRequestState.run tr)) ∧
    (∀ (T : Type) (n : Nat),
      nextCount (LoadingRequestState.run (T := T) n).requestEvents = 0 ∧
      terminalCount (LoadingRequestState.run (T := T) n).requestEvents ≤ 1 ∧
      (thenDeliveries (LoadingRequestState.run (T := T) n).requestEvents).length ≤ 1) ∧
    (∀ (T : Type) (s : StaticRequestState T),
      thenDeliveries s.requestEvents = [ThenEvent.value s.value] ∧
      s.thenRun = [ThenEvent.value s.value]) ∧
    (∀ (T : Type) (f : Nat → Err) (i : Nat),
      thenDeliveries (ErrorRequestState.requestEventsAt (T := T) f i) =
        [ThenEvent.failure (f i)]) ∧
    (∀ (T : Type),
      thenDeliveries (EmptyRequestState.requestEvents (T := T)) =
        [ThenEvent.failure Err.emptyError]) := by
  refine ⟨?_, ?_, ?_, ?_, ?_, ?_, ?_⟩
  · intro T tr i
    obtain ⟨h1, h2, h3, h4⟩ := latch_run_inv tr
    exact ⟨h3, h4, thenDeliveries_length_le _,
      fun hc => latch_completed_noop ⟨h1, h2, h3, h4⟩ hc i⟩
  · intro T tr i
    obtain ⟨h1, h2, h3, h4⟩ := fwd_run_inv tr
    exact ⟨h3, h4, thenDeliveries_length_le _,
      fun hst => fwd_stopped_noop ⟨h1, h2, h3, h4⟩ hst i⟩
  · intro T tr i
    obtain ⟨h1, h2, h3, h4⟩ := writable_run_inv tr
    exact ⟨h3, h4, thenDeliveries_length_le _, fun hc => writable_completed_noop hc i⟩
  · intro T n
    cases n with
    | zero =>
        simp [LoadingRequestState.run, LoadingRequestState.init, nextCount, terminalCount,
          thenDeliveries]
    | succ n =>
        rw [LoadingRequestState.run_succ_eq]
        simp [nextCount, terminalCount, thenDeliveries]
  · intro T s
    exact ⟨rfl, rfl⟩
  · intro T f i
    rfl
  · intro T
    rfl

/-- C1 witness: concrete post-terminal transition attempts are no-ops on all
three stateful variants. -/
theorem C1_witness :
    (AsyncRequestStateLatch.run [AsyncInput.srcValue (5 : Nat)]).deliver
        (AsyncInput.cancel none) =
      AsyncRequestStateLatch.run [AsyncInput.srcValue (5 : Nat)] ∧
    (AsyncRequestStateFwd.run [AsyncInput.srcError (T := Nat) ErrVal.undef]).deliver
        AsyncInput.srcComplete =
      AsyncRequestStateFwd.run [AsyncInput.srcError (T := Nat) ErrVal.undef] ∧
    (WritableRequestState.run [WInput.setValue (3 : Nat)]).step (WInput.setError ErrVal.undef) =
      WritableRequestState.run [WInput.setValue (3 : Nat)] :=
  ⟨(C1_terminal_once.1 Nat [AsyncInput.srcValue 5] (AsyncInput.cancel none)).2.2.2 (by decide),
   (C1_terminal_once.2.1 Nat [AsyncInput.srcError ErrVal.undef] AsyncInput.srcComplete).2.2.2
     (by decide),
   (C1_terminal_once.2.2.1 Nat [WInput.setValue 3] (WInput.setError ErrVal.undef)).2.2.2
     (by decide)⟩

/-- C7: on every variant, calling cancel after a terminal transition returns
false and leaves the whole state (in particular the result and error
snapshots) unchanged.  For the stateful variants terminality is the request
channel having accepted its terminal event; for the Perpetual-Pending variant
it is a previous cancel call; the degenerate variants never change state. -/
theorem C7_cancel_after_terminal :
    (∀ (T : Type) (tr : List (AsyncInput T)) (r : Option CancelReason),
      chanStopped (AsyncRequestStateLatch.run tr).requestEvents = true →
      (AsyncRequestStateLatch.run tr).cancel r = (AsyncRequestStateLatch.run tr, false)) ∧
    (∀ (T : Type) (tr : List (AsyncInput T)) (r : Option CancelReason),
      chanStopped (AsyncRequestStateFwd.run tr).requestEvents = true →
      (AsyncRequestStateFwd.run tr).cancel r = (AsyncRequestStateFwd.run tr, false)) ∧
    (∀ (T : Type) (tr : List (WInput T)) (r : Option CancelReason),
      chanStopped (WritableRequestState.run tr).requestEvents = true →
      (WritableRequestState.run tr).cancel r = (WritableRequestState.run tr, false)) ∧
    (∀ (T : Type) (n : Nat),
      (LoadingRequestState.run (T := T) (n + 1)).cancel =
        (LoadingRequestState.run (T := T) (n + 1), false)) ∧
    (∀ (T : Type) (s : StaticRequestState T), s.cancel = (s, false)) ∧
    (∀ s : ErrorRequestState, s.cancel = (s, false)) ∧
    (EmptyRequestState.cancel = false) := by
  refine ⟨?_, ?_, ?_, ?_, ?_, ?_, rfl⟩
  · intro T tr r hst
    obtain ⟨h1, h2, h3, h4⟩ := latch_run_inv tr
    cases hc : (AsyncRequestStateLatch.run tr).completed with
    | false =>
        rw [h2 hc] at hst
        simp [chanStopped] at hst
    | true => simp [AsyncRequestStateLatch.cancel, hc]
  · intro T tr r hst
    have hs := (fwd_run_inv tr).2.1 hst
    simp [AsyncRequestStateFwd.cancel, hs]
  · intro T tr r hst
    have hc := (writable_run_inv tr).2.1 hst
    simp [WritableRequestState.cancel, hc]
  · intro T n
    rw [LoadingRequestState.run_succ_eq]
    simp [LoadingRequestState.cancel, chanComplete, chanStopped]
  · intro T s
    rfl
  · intro s
    rfl

/-- C7 witness: cancel after a concrete terminal transition on each stateful
variant returns false and changes nothing. -/
theorem C7_witness :
    (AsyncRequestStateLatch.run [AsyncInput.srcValue (1 : Nat)]).cancel none =
      (AsyncRequestStateLatch.run [AsyncInput.srcValue (1 : Nat)], false) ∧
    (AsyncRequestStateFwd.run [AsyncInput.srcComplete (T := Nat)]).cancel none =
      (AsyncRequestStateFwd.run [AsyncInput.srcComplete (T := Nat)], false) ∧
    (WritableRequestState.run [WInput.setError (T := Nat) ErrVal.undef]).cancel
        (some (CancelReason.str ("late"))) =
      (WritableRequestState.run [WInput.setError (T := Nat) ErrVal.undef], false) :=
  ⟨C7_cancel_after_terminal.1 Nat [AsyncInput.srcValue 1] none (by decide),
   C7_cancel_after_terminal.2.1 Nat [AsyncInput.srcComplete] none (by decide),
   C7_cancel_after_terminal.2.2.1 Nat [WInput.setError ErrVal.undef]
     (some (CancelReason.str ("late"))) (by decide)⟩

/-- C10: driven by any source delivering at most one signal, interleaved
arbitrarily (but not re-entrantly) with cancel calls, the two AsyncRequestState
implementations produce identical observable outcomes: the same request and
result channel events, the same result, loading, error and failed signal
values, and the same cancel return values. -/
theorem C10_async_equivalence :
    ∀ (T : Type) (tr : List (AsyncInput T)), srcSignalCount tr ≤ 1 →
      (AsyncRequestStateFwd.runFrom AsyncRequestStateFwd.init tr).1.obs =
        (AsyncRequestStateLatch.runFrom AsyncRequestStateLatch.init tr).1.obs ∧
      (AsyncRequestStateFwd.runFrom AsyncRequestStateFwd.init tr).2 =
        (AsyncRequestStateLatch.runFrom AsyncRequestStateLatch.init tr).2 := by
  intro T tr _
  have hinit : FwdLatchCoupled (AsyncRequestStateFwd.init (T := T))
      AsyncRequestStateLatch.init := by
    simp [FwdLatchCoupled, AsyncRequestStateFwd.init, AsyncRequestStateLatch.init]
  obtain ⟨hc, hr⟩ := coupled_runFrom tr AsyncRequestStateFwd.init AsyncRequestStateLatch.init hinit
  obtain ⟨e1, e2, e3, e4, e5, e6, e7, e8⟩ := hc
  refine ⟨?_, hr⟩
  simp [AsyncRequestStateFwd.obs, AsyncRequestStateLatch.obs,
    AsyncRequestStateFwd.failed, AsyncRequestStateLatch.failed, e1, e2, e3, e4, e5]

/-- C10 witness: a one-value source with a late cancel produces identical
observables and cancel returns in both implementations. -/
theorem C10_witness :
    (AsyncRequestStateFwd.runFrom AsyncRequestStateFwd.init
        [AsyncInput.srcValue (2 : Nat), AsyncInput.cancel none]).1.obs =
      (AsyncRequestStateLatch.runFrom AsyncRequestStateLatch.init
        [AsyncInput.srcValue (2 : Nat), AsyncInput.cancel none]).1.obs ∧
    (AsyncRequestStateFwd.runFrom AsyncRequestStateFwd.init
        [AsyncInput.srcValue (2 : Nat), AsyncInput.cancel none]).2 =
      (AsyncRequestStateLatch.runFrom AsyncRequestStateLatch.init
        [AsyncInput.srcValue (2 : Nat), AsyncInput.cancel none]).2 :=
  C10_async_equivalence Nat [AsyncInput.srcValue 2, AsyncInput.cancel none] (by decide)
